import Mathlib

/-!
Verification development for the k8s_inspector program.

Shallow embedding of src/k8s_inspector.py: resource snapshots become
structures with optional fields, the per-kind classifiers become pure
functions from a listing result to an issue list, the sorting step of the
reporter becomes a stable merge sort, the local manifest checker becomes a
function over parsed YAML documents, and the main apply path becomes a
trace-producing function over the results of its external collaborators.

Python conventions carried over explicitly:
* an attribute that may be None becomes an Option field;
* `x or y` on an optional value becomes getD (falsy None picks the default);
* a caught ApiException becomes the error branch of an Except argument that
  stands for the outcome of the listing call;
* f-string rendering of an optional value prints an absent value as the four-letter text None.
-/

namespace K8sInspector

/-- Rendering of an optional string inside a Python f-string: an absent
value prints as the text None. -/
def pyStr : Option String → String
  | none => "None"
  | some s => s

/-- Substring test, the Python expression `pat in s` on strings. -/
def strContainsSub (s pat : String) : Bool :=
  (List.range (s.length + 1)).any (fun i => pat.data.isPrefixOf (s.data.drop i))

/-- Issue record: the dictionaries built by every classifier all have exactly
the keys severity, title, detail, suggestion. -/
structure Issue where
  severity : String
  title : String
  detail : String
  suggestion : String
  deriving Repr, DecidableEq

/-! ## Nodes (check_nodes, lines 54-94) -/

structure NodeCondition where
  type : String
  status : String
  last_heartbeat_time : String
  last_transition_time : String
  deriving Repr, DecidableEq

structure NodeSpec where
  unschedulable : Option Bool
  deriving Repr, DecidableEq

structure NodeStatus where
  conditions : Option (List NodeCondition)
  deriving Repr, DecidableEq

structure ObjectMeta where
  name : String
  deriving Repr, DecidableEq

structure Node where
  metadata : ObjectMeta
  spec : NodeSpec
  status : NodeStatus
  deriving Repr, DecidableEq

/-- Lookup in the dict comprehension over conditions keyed by type: a later
condition with the same type overwrites an earlier one, so the lookup
returns the last matching condition. -/
def condGet (conds : List NodeCondition) (t : String) : Option NodeCondition :=
  (conds.filter (fun c => c.type == t)).getLast?

def nodeNotReadySuggestion : String :=
  "Check node kubelet, disk pressure, network. Run: kubectl describe node \x7bname\x7d and check kubelet logs on the node."

/-- First block of the per-node loop: the NotReady warning. When the Ready
condition is missing, getattr falls back to the text Unknown and the
heartbeat variable to the text unknown. -/
def nodeNotReadyIssues (n : Node) : List Issue :=
  let name := n.metadata.name
  let conditions := n.status.conditions.getD []
  match condGet conditions ("Ready") with
  | none =>
      [{ severity := "warning", title := "Node NotReady: " ++ name,
         detail := "Ready=Unknown (lastHeartbeat=unknown)",
         suggestion := nodeNotReadySuggestion }]
  | some ready =>
      if ready.status != "True" then
        [{ severity := "warning", title := "Node NotReady: " ++ name,
           detail := "Ready=" ++ ready.status ++ " (lastHeartbeat=" ++ ready.last_heartbeat_time ++ ")",
           suggestion := nodeNotReadySuggestion }]
      else []

/-- Second block of the per-node loop: the cordoned info issue. -/
def nodeCordonIssues (n : Node) : List Issue :=
  let name := n.metadata.name
  if n.spec.unschedulable.getD false then
    [{ severity := "info", title := "Node Cordoned (unschedulable): " ++ name,
       detail := "Node.spec.unschedulable is true",
       suggestion := "If maintenance finished, uncordon: kubectl uncordon " ++ name }]
  else []

/-- Third block of the per-node loop: one warning per pressure type that is
present with status True. -/
def nodePressureIssues (n : Node) : List Issue :=
  let name := n.metadata.name
  let conditions := n.status.conditions.getD []
  ["DiskPressure", "MemoryPressure", "PIDPressure"].flatMap (fun t =>
    match condGet conditions t with
    | some c =>
        if c.status == "True" then
          [{ severity := "warning", title := "Node pressure " ++ t ++ ": " ++ name,
             detail := t ++ " is True (lastTransition: " ++ c.last_transition_time ++ ")",
             suggestion := "Investigate resource usage on node, evictions, and taints." }]
        else []
    | none => [])

def nodeIssues (n : Node) : List Issue :=
  nodeNotReadyIssues n ++ nodeCordonIssues n ++ nodePressureIssues n

/-- The node classifier. The listing call sits inside try/except, so a
listing fault is converted into a single error issue. -/
def check_nodes (listing : Except String (List Node)) : Except String (List Issue) :=
  match listing with
  | .error e =>
      .ok [{ severity := "error", title := "Failed to list nodes", detail := e,
             suggestion := "Check RBAC and connectivity" }]
  | .ok nodes => .ok (nodes.flatMap nodeIssues)

/-! ## Pods (analyze_pods, lines 96-173) -/

structure WaitingState where
  reason : Option String
  message : Option String
  deriving Repr, DecidableEq

structure TerminatedState where
  exit_code : Int
  signal : Option Int
  reason : Option String
  finished_at : String
  deriving Repr, DecidableEq

structure ContainerState where
  waiting : Option WaitingState
  deriving Repr, DecidableEq

structure ContainerLastState where
  terminated : Option TerminatedState
  deriving Repr, DecidableEq

structure ContainerStatus where
  name : String
  state : ContainerState
  last_state : ContainerLastState
  restart_count : Nat
  deriving Repr, DecidableEq

structure NamespacedMeta where
  namespace_ : String
  name : String
  deriving Repr, DecidableEq

structure PodStatus where
  phase : String
  message : Option String
  container_statuses : Option (List ContainerStatus)
  deriving Repr, DecidableEq

structure Pod where
  metadata : NamespacedMeta
  status : PodStatus
  deriving Repr, DecidableEq

/-- Issues emitted for one container status inside the per-pod loop. -/
def containerIssues (ns name : String) (cs : ContainerStatus) : List Issue :=
  let cname := cs.name
  let waitingIssues :=
    match cs.state.waiting with
    | none => []
    | some w =>
        let reason := w.reason
        let detail := w.message.getD ("")
        if reason == some ("CrashLoopBackOff") || reason == some ("Error") then
          [{ severity := "warning",
             title := "Container CrashLoopBackOff/Error: " ++ ns ++ "/" ++ name ++ ":" ++ cname,
             detail := "Reason=" ++ pyStr reason ++ ". Message=" ++ detail,
             suggestion := "Inspect logs: kubectl logs -n \x7bns\x7d \x7bname\x7d -c \x7bcname\x7d --previous\nCommon fixes: fix app exception, increase readinessTimeout, check env/config, use image with correct tag." }]
        else if reason == some ("ImagePullBackOff") || reason == some ("ErrImagePull") || reason == some ("RegistryUnavailable") then
          [{ severity := "warning",
             title := "Image pull problem: " ++ ns ++ "/" ++ name ++ ":" ++ cname,
             detail := "Reason=" ++ pyStr reason ++ ". Message=" ++ detail,
             suggestion := "Check image name/tag, registry secret, imagePullSecrets, network. Try docker pull locally or check registry auth." }]
        else if reason == some ("CreateContainerConfigError") then
          [{ severity := "warning",
             title := "Container config error: " ++ ns ++ "/" ++ name ++ ":" ++ cname,
             detail := detail,
             suggestion := "Likely bad command/args/env/volumeMounts. kubectl describe pod and check container spec and mounted volumes." }]
        else []
  let terminatedIssues :=
    match cs.last_state.terminated with
    | none => []
    | some term =>
        if term.reason == some ("OOMKilled") || term.signal.getD 0 == 9 then
          [{ severity := "warning",
             title := "OOMKilled / terminated container: " ++ ns ++ "/" ++ name ++ ":" ++ cname,
             detail := "ExitCode=" ++ toString term.exit_code ++ ", reason=" ++ pyStr term.reason ++ ", finish=" ++ term.finished_at,
             suggestion := "Increase memory requests/limits, check for memory leaks, review recent changes, examine logs prior to termination." }]
        else []
  let restartIssues :=
    if cs.restart_count != 0 && decide (cs.restart_count > 5) then
      [{ severity := "warning",
         title := "High restart count: " ++ ns ++ "/" ++ name ++ ":" ++ cname,
         detail := "Restarts=" ++ toString cs.restart_count,
         suggestion := "Investigate initialization,CrashLoopBackOff; check livenessProbe too aggressive, check readiness probe vs startup probe." }]
    else []
  waitingIssues ++ terminatedIssues ++ restartIssues

/-- Per-pod body of analyze_pods: the Pending warning followed by the
container-status issues. -/
def podIssues (p : Pod) : List Issue :=
  let ns := p.metadata.namespace_
  let name := p.metadata.name
  let status := p.status
  let pendingIssues :=
    if status.phase == "Pending" then
      let message := status.message.getD ("")
      [{ severity := "warning", title := "Pod Pending: " ++ ns ++ "/" ++ name,
         detail := "Phase=Pending. Reason/message: " ++ (if message == "" then ("none") else message),
         suggestion := "kubectl describe pod -n \x7bns\x7d \x7bname\x7d to see events; check PVCs, scheduling, node selectors, resource requests." }]
    else []
  pendingIssues ++ (status.container_statuses.getD []).flatMap (containerIssues ns name)

/-- The pod classifier. Unlike the other four classifiers, the source wraps
no try/except around the pod listing calls, so a listing fault propagates
to the caller: that is the error branch here. -/
def analyze_pods (listing : Except String (List Pod)) : Except String (List Issue) :=
  match listing with
  | .error e => .error e
  | .ok pods => .ok (pods.flatMap podIssues)

/-! ## Deployments (check_deployments, lines 175-208) -/

structure DeploymentCondition where
  type : String
  status : String
  reason : Option String
  message : Option String
  deriving Repr, DecidableEq

structure DeploymentSpec where
  replicas : Option Nat
  deriving Repr, DecidableEq

structure DeploymentStatus where
  available_replicas : Option Nat
  conditions : Option (List DeploymentCondition)
  deriving Repr, DecidableEq

structure Deployment where
  metadata : NamespacedMeta
  spec : DeploymentSpec
  status : DeploymentStatus
  deriving Repr, DecidableEq

def deploymentMismatchSuggestion : String :=
  "Check recent rollout: kubectl rollout status deployment/\x7bname\x7d -n \x7bns\x7d; inspect pods for crash/scheduling issues."

/-- First part of the per-deployment body: the replica comparison. Both
replica counts go through `x or 0`, so an absent count is compared as 0. -/
def deploymentMismatchIssues (d : Deployment) : List Issue :=
  let ns := d.metadata.namespace_
  let name := d.metadata.name
  let spec_replicas := d.spec.replicas.getD 0
  let status_replicas := d.status.available_replicas.getD 0
  if spec_replicas != status_replicas then
    [{ severity := "warning", title := "Replica mismatch: " ++ ns ++ "/" ++ name,
       detail := "desired=" ++ toString spec_replicas ++ ", available=" ++ toString status_replicas,
       suggestion := deploymentMismatchSuggestion }]
  else []

/-- Second part of the per-deployment body: the loop over status conditions
looking for a Progressing condition with status False. -/
def deploymentProgressIssues (d : Deployment) : List Issue :=
  let ns := d.metadata.namespace_
  let name := d.metadata.name
  (d.status.conditions.getD []).flatMap (fun c =>
    if c.type == "Progressing" && c.status == "False" then
      [{ severity := "warning", title := "Deployment not progressing: " ++ ns ++ "/" ++ name,
         detail := pyStr c.reason ++ ": " ++ pyStr c.message,
         suggestion := "kubectl describe deployment -n \x7bns\x7d \x7bname\x7d; check events and ReplicaSets" }]
    else [])

/-- Per-deployment body of check_deployments, in source order. -/
def deploymentIssues (d : Deployment) : List Issue :=
  deploymentMismatchIssues d ++ deploymentProgressIssues d

/-- The deployment classifier; the listing call is guarded by try/except. -/
def check_deployments (listing : Except String (List Deployment)) : Except String (List Issue) :=
  match listing with
  | .error e =>
      .ok [{ severity := "error", title := "Failed to list deployments", detail := e,
             suggestion := "Check RBAC and connectivity" }]
  | .ok deps => .ok (deps.flatMap deploymentIssues)

/-! ## Persistent volume claims (check_pvcs, lines 210-231) -/

structure PvcStatus where
  phase : Option String
  deriving Repr, DecidableEq

structure Pvc where
  metadata : NamespacedMeta
  status : PvcStatus
  deriving Repr, DecidableEq

def pvcIssues (pvc : Pvc) : List Issue :=
  let ns := pvc.metadata.namespace_
  let name := pvc.metadata.name
  let phase := pvc.status.phase
  if phase != some ("Bound") then
    [{ severity := "warning", title := "PVC not Bound: " ++ ns ++ "/" ++ name,
       detail := "phase=" ++ pyStr phase,
       suggestion := "Check StorageClass, PV availability, and events: kubectl describe pvc -n \x7bns\x7d \x7bname\x7d" }]
  else []

/-- The claim classifier; the listing call is guarded by try/except. -/
def check_pvcs (listing : Except String (List Pvc)) : Except String (List Issue) :=
  match listing with
  | .error e =>
      .ok [{ severity := "error", title := "Failed to list PVCs", detail := e,
             suggestion := "Check RBAC and connectivity" }]
  | .ok pvcs => .ok (pvcs.flatMap pvcIssues)

/-! ## Events (collect_events, lines 233-263)

Timestamps are modelled as seconds (Int); the current wall clock is an
explicit `now` parameter. -/

structure InvolvedObject where
  kind : String
  name : String
  deriving Repr, DecidableEq

structure EventRecord where
  type : String
  last_timestamp : Option Int
  event_time : Option Int
  first_timestamp : Option Int
  involved_object : InvolvedObject
  reason : String
  message : String
  deriving Repr, DecidableEq

/-- Timestamp choice `e.last_timestamp or e.event_time or e.first_timestamp`:
the first present value wins, in that preference order. -/
def eventTs (e : EventRecord) : Option Int :=
  match e.last_timestamp with
  | some t => some t
  | none =>
      match e.event_time with
      | some t => some t
      | none => e.first_timestamp

/-- Issue built for a Warning event that passed the cutoff filter. -/
def eventIssue (e : EventRecord) : Issue :=
  { severity := "warning",
    title := "Event: " ++ e.involved_object.kind ++ " " ++ e.involved_object.name ++ " - " ++ e.reason,
    detail := e.message,
    suggestion := "Investigate the resource and reason; kubectl describe on the involved object." }

/-- The event classifier; the listing call is guarded by try/except. An event
without any timestamp is skipped, one strictly older than the cutoff is
skipped, and only type Warning is promoted. -/
def collect_events (now : Int) (since_minutes : Int)
    (listing : Except String (List EventRecord)) : Except String (List Issue) :=
  match listing with
  | .error e =>
      .ok [{ severity := "error", title := "Failed to list events", detail := e,
             suggestion := "Check RBAC and connectivity" }]
  | .ok events =>
      let cutoff := now - since_minutes * 60
      .ok (events.filterMap (fun e =>
        match eventTs e with
        | none => none
        | some ts =>
            if ts < cutoff then none
            else if e.type == "Warning" then some (eventIssue e)
            else none))

/-! ## Scan driver and reporter (scan_cluster / pretty_print_issues, lines 303-331) -/

/-- Concatenation order of scan_cluster: nodes, pods, deployments, claims,
events. A fault propagating out of analyze_pods aborts the scan. -/
def scan_cluster (now : Int)
    (nodesL : Except String (List Node)) (podsL : Except String (List Pod))
    (depsL : Except String (List Deployment)) (pvcsL : Except String (List Pvc))
    (eventsL : Except String (List EventRecord)) : Except String (List Issue) := do
  let a ← check_nodes nodesL
  let b ← analyze_pods podsL
  let c ← check_deployments depsL
  let d ← check_pvcs pvcsL
  let e ← collect_events now 60 eventsL
  return a ++ b ++ c ++ d ++ e

/-- Severity ranking of pretty_print_issues: the dict lookup with default 1
maps error to 0, warning to 1, info to 2 and anything else to 1. -/
def sev_order (s : String) : Nat :=
  if s == "error" then 0 else if s == "warning" then 1 else if s == "info" then 2 else 1

/-- Comparison underlying the Python key function
`(sev_order.get(severity, 1), title)`: lexicographic on rank then title. -/
def sortKeyLe (a b : Issue) : Bool :=
  decide (sev_order a.severity < sev_order b.severity ∨
    (sev_order a.severity = sev_order b.severity ∧ a.title ≤ b.title))

/-- The sorted list rendered by pretty_print_issues. Python sorted is a
stable sort by the key; mergeSort with the lexicographic comparison is the
same stable sort. -/
def issues_sorted (issues : List Issue) : List Issue :=
  issues.mergeSort sortKeyLe

/-! ## Local manifest check (simple_local_manifest_check, lines 282-299)

YAML values are modelled by an inductive; the file read plus
yaml.safe_load_all is an external step whose outcome is the Except
argument: a parse failure of the whole file is its error branch. -/

inductive Yaml where
  | null
  | bool (b : Bool)
  | int (n : Int)
  | str (s : String)
  | seq (items : List Yaml)
  | map (entries : List (String × Yaml))
  deriving Repr

/-- Python membership `k in v`. On a dict it is key membership, on a string a
substring test, on a list element equality (a string compares equal only to
an equal string); those cannot fail. On None, bools and ints Python raises
a TypeError, modelled here as the error branch. -/
def pyIn (k : String) : Yaml → Except String Bool
  | .map es => .ok (es.any (fun p => p.1 == k))
  | .str s => .ok (strContainsSub s k)
  | .seq xs => .ok (xs.any (fun y => match y with | .str s => s == k | _ => false))
  | .null => .error ("TypeError: argument of type \x27NoneType\x27 is not iterable")
  | .bool _ => .error ("TypeError: argument of type \x27bool\x27 is not iterable")
  | .int _ => .error ("TypeError: argument of type \x27int\x27 is not iterable")

/-- Python `d.get(k, default)` on a mapping. -/
def dictGet (d : Yaml) (k : String) (dflt : Yaml) : Yaml :=
  match d with
  | .map es =>
      match es.find? (fun p => p.1 == k) with
      | some p => p.2
      | none => dflt
  | _ => dflt

/-- Problem strings of one document in the loop body. The two membership
tests on the document itself are dict-key lookups (the document is known to
be a mapping in that branch) and cannot fail; the test on the metadata
value goes through pyIn and can raise a TypeError, and is short-circuited
away when the metadata key is absent, exactly as the Python or-expression
evaluates. -/
def docProblems (i : Nat) (d : Yaml) : Except String (List String) :=
  match d with
  | .map es =>
      let kindProblems :=
        if es.any (fun p => p.1 == ("kind")) then []
        else ["Document " ++ toString i ++ " missing \x27kind\x27"]
      if es.any (fun p => p.1 == ("metadata")) then
        match pyIn ("name") (dictGet (Yaml.map es) ("metadata") (Yaml.map [])) with
        | .error e => .error e
        | .ok hasName =>
            .ok (kindProblems ++
              (if hasName then [] else ["Document " ++ toString i ++ " missing metadata.name"]))
      else
        .ok (kindProblems ++ ["Document " ++ toString i ++ " missing metadata.name"])
  | _ => .ok ["Document " ++ toString i ++ " is not a mapping"]

/-- The enumerate loop of simple_local_manifest_check: documents processed
in order with their problems appended; a TypeError raised while checking a
document aborts the loop and propagates. -/
def manifestProblemsFrom : Nat → List Yaml → Except String (List String)
  | _, [] => .ok []
  | i, d :: rest =>
      match docProblems i d with
      | .error e => .error e
      | .ok ps =>
          match manifestProblemsFrom (i + 1) rest with
          | .error e => .error e
          | .ok restPs => .ok (ps ++ restPs)

def manifestProblems (docs : List Yaml) : Except String (List String) :=
  manifestProblemsFrom 0 docs

/-- The local structural manifest check: verdict flag plus output text. The
try in the source wraps only the file read and parse, so a parse failure
becomes a failed verdict while a TypeError from the document loop
propagates uncaught: that is the outer error branch. -/
def simple_local_manifest_check (parsed : Except String (List Yaml)) :
    Except String (Bool × String) :=
  match parsed with
  | .error e => .ok (false, "YAML parse error: " ++ e)
  | .ok docs =>
      match manifestProblems docs with
      | .error e => .error e
      | .ok problems =>
          .ok (problems.length == 0,
            if problems.length == 0 then ("Basic YAML checks passed.")
            else String.intercalate ("\n") problems)

/-- Documents on which the document loop cannot raise: when the document is
a mapping with a metadata key, its value supports the Python membership
test (a mapping, a string or a sequence). -/
def metadataMembershipSafe (d : Yaml) : Bool :=
  match d with
  | .map es =>
      match es.find? (fun p => p.1 == ("metadata")) with
      | some p =>
          match p.2 with
          | .map _ => true
          | .str _ => true
          | .seq _ => true
          | _ => false
      | none => true
  | _ => true

/-! ## Main apply path (main, lines 380-404)

The outcomes of the two validate_manifest calls and of apply_manifest are
inputs; the function returns the ordered trace of collaborator calls and
the status lines main prints. -/

inductive TraceEvent where
  | validateCall (idx : Nat) (ok : Bool)
  | applyCall (ok : Bool)
  | print (line : String)
  deriving Repr, DecidableEq

/-- The manifest branch of main. `validateResult k` is the verdict of the
k-th validate_manifest call, `applyResult` the verdict of apply_manifest;
`applyFlag` is the --apply switch. The second validation runs fresh right
before apply; apply runs only when it succeeds. -/
def mainManifestFlow (validateResult : Nat → Bool × String) (applyResult : Bool × String)
    (applyFlag : Bool) : List TraceEvent :=
  let ok := (validateResult 0).1
  let reportPart :=
    [TraceEvent.validateCall 0 ok] ++
    (if !ok then
      [TraceEvent.print ("[main] Manifest validation failed. Suggested actions:"),
       TraceEvent.print ("  - Fix errors reported by kubectl or YAML checks."),
       TraceEvent.print ("  - If ImagePull errors, check image and registry credentials."),
       TraceEvent.print ("  - If RBAC/CRD errors, ensure cluster has required CRDs and your user has permissions.")]
     else
      [TraceEvent.print ("[main] Manifest validated OK by server-side dry-run (or basic checks).")])
  let applyPart :=
    if applyFlag then
      let ok2 := (validateResult 1).1
      [TraceEvent.print ("[main] User requested apply; performing server-side dry-run before apply once more..."),
       TraceEvent.validateCall 1 ok2] ++
      (if !ok2 then
        [TraceEvent.print ("[main] Dry-run failed; NOT applying. Fix manifest first.")]
       else
        let ok_apply := applyResult.1
        let apply_out := applyResult.2
        [TraceEvent.print ("[main] Dry-run succeeded. Proceeding to apply (kubectl apply)..."),
         TraceEvent.applyCall ok_apply,
         TraceEvent.print apply_out] ++
        (if !ok_apply then
          [TraceEvent.print ("[main] Apply failed; inspect the error output above.")]
         else
          [TraceEvent.print ("[main] Apply succeeded (kubectl reported success).")]))
    else []
  reportPart ++ applyPart

def isCall : TraceEvent → Bool
  | .validateCall _ _ => true
  | .applyCall _ => true
  | .print _ => false

/-- The collaborator calls of a trace, prints dropped. -/
def callsOf (tr : List TraceEvent) : List TraceEvent :=
  tr.filter isCall

/-- Whether the external apply operation was invoked in a trace. -/
def applyInvoked (tr : List TraceEvent) : Bool :=
  tr.any (fun ev => match ev with | .applyCall _ => true | _ => false)

/-! ## Predicates used by the theorem statements -/

/-- Identifies the replica-mismatch issue of check_deployments by its fixed
title head. -/
def replicaMismatchTitled (it : Issue) : Bool :=
  "Replica mismatch: ".data.isPrefixOf it.title.data

/-- Identifies the NotReady issue of check_nodes by its fixed title head. -/
def nodeNotReadyTitled (it : Issue) : Bool :=
  "Node NotReady: ".data.isPrefixOf it.title.data

/-- Membership predicate of the event filter: a usable timestamp exists, it
is not older than the cutoff, and the event type is exactly Warning. -/
def eventMatches (cutoff : Int) (e : EventRecord) : Bool :=
  match eventTs e with
  | none => false
  | some ts => if ts < cutoff then false else e.type == "Warning"

/-! ## Helper lemmas -/

theorem prefix_titled (p t : String) : p.data.isPrefixOf (p ++ t).data = true := by
  rw [String.data_append, List.isPrefixOf_iff_prefix]
  exact List.prefix_append _ _

theorem mismatch_titled (sev det sug ns name : String) :
    replicaMismatchTitled ⟨sev, "Replica mismatch: " ++ ns ++ "/" ++ name, det, sug⟩ = true := by
  show ("Replica mismatch: ").data.isPrefixOf ("Replica mismatch: " ++ ns ++ "/" ++ name).data = true
  rw [String.append_assoc, String.append_assoc]
  exact prefix_titled _ _

theorem filter_progress_nil (d : Deployment) :
    (deploymentProgressIssues d).filter replicaMismatchTitled = [] := by
  rw [List.filter_eq_nil_iff]
  intro a ha
  simp only [deploymentProgressIssues, List.mem_flatMap] at ha
  obtain ⟨c, _, ha⟩ := ha
  split at ha
  · simp only [List.mem_singleton] at ha
    subst ha
    exact fun hh => Bool.noConfusion hh
  · simp at ha

/-! ## Claim theorems -/

/-- Claim C9: a manifest file that parses to zero YAML documents is accepted:
the document loop never runs, so the check returns a successful verdict with
the output text Basic YAML checks passed. -/
theorem empty_manifest_accepted :
    simple_local_manifest_check (Except.ok []) =
      Except.ok (true, "Basic YAML checks passed.") := rfl

/-- Claim C2 counterexample: the pod classifier does not convert a listing
fault into an error issue; the fault propagates to the caller (the source
wraps no try/except around the pod listing, unlike the other classifiers). -/
theorem pod_listing_fault_propagates :
    analyze_pods (Except.error ("HTTP 403 Forbidden")) = Except.error ("HTTP 403 Forbidden") := rfl

/-- Claim C2 amended: for nodes, deployments, persistent volume claims and
events a listing failure yields exactly one error-severity issue suggesting
RBAC/connectivity checks; for pods the fault propagates uncaught. -/
theorem listing_fault_handling_amended (e : String) (now mins : Int) :
    check_nodes (Except.error e) =
      Except.ok [{ severity := "error", title := "Failed to list nodes", detail := e,
                   suggestion := "Check RBAC and connectivity" }] ∧
    check_deployments (Except.error e) =
      Except.ok [{ severity := "error", title := "Failed to list deployments", detail := e,
                   suggestion := "Check RBAC and connectivity" }] ∧
    check_pvcs (Except.error e) =
      Except.ok [{ severity := "error", title := "Failed to list PVCs", detail := e,
                   suggestion := "Check RBAC and connectivity" }] ∧
    collect_events now mins (Except.error e) =
      Except.ok [{ severity := "error", title := "Failed to list events", detail := e,
                   suggestion := "Check RBAC and connectivity" }] ∧
    analyze_pods (Except.error e) = Except.error e :=
  ⟨rfl, rfl, rfl, rfl, rfl⟩

/-- Claim C1: with --apply set, the external apply operation runs only when
the second, fresh validation directly before it succeeded; when that second
dry-run fails, apply is never invoked and main reports failure, whatever
the first validation returned. -/
theorem apply_gate_requires_fresh_dry_run (v : Nat → Bool × String) (a : Bool × String) :
    (callsOf (mainManifestFlow v a true) =
      if (v 1).1 then
        [TraceEvent.validateCall 0 (v 0).1, TraceEvent.validateCall 1 true, TraceEvent.applyCall a.1]
      else
        [TraceEvent.validateCall 0 (v 0).1, TraceEvent.validateCall 1 false]) ∧
    ((v 1).1 = false →
      applyInvoked (mainManifestFlow v a true) = false ∧
      TraceEvent.print ("[main] Dry-run failed; NOT applying. Fix manifest first.") ∈
        mainManifestFlow v a true) := by
  constructor
  · rcases h0 : (v 0).1 <;> rcases h1 : (v 1).1 <;> rcases ha : a.1 <;>
      simp [mainManifestFlow, callsOf, isCall, h0, h1, ha]
  · intro h1
    rcases h0 : (v 0).1 <;> rcases ha : a.1 <;>
      simp [mainManifestFlow, applyInvoked, h0, h1, ha]

/-- Claim C1 witness: a run whose first validation succeeds and whose second
fails never reaches apply and reports the dry-run failure. -/
theorem apply_gate_requires_fresh_dry_run_witness :
    applyInvoked (mainManifestFlow (fun k => (k == 0, "out")) (true, "applied") true) = false ∧
    TraceEvent.print ("[main] Dry-run failed; NOT applying. Fix manifest first.") ∈
      mainManifestFlow (fun k => (k == 0, "out")) (true, "applied") true :=
  (apply_gate_requires_fresh_dry_run (fun k => (k == 0, "out")) (true, "applied")).2 rfl

/-- Claim C6: a deployment yields a Replica mismatch warning exactly when the
normalized desired count differs from the normalized available count; 3/3
yields none, 3/1 yields exactly one whose detail carries desired=3 and
available=1. -/
theorem replica_mismatch_rule (d : Deployment) :
    ((deploymentIssues d).countP replicaMismatchTitled =
      if d.spec.replicas.getD 0 != d.status.available_replicas.getD 0 then 1 else 0) ∧
    ((deploymentIssues
        { metadata := ⟨"ns", "app"⟩, spec := ⟨some 3⟩, status := ⟨some 3, none⟩ }).countP
        replicaMismatchTitled = 0) ∧
    ((deploymentIssues
        { metadata := ⟨"ns", "app"⟩, spec := ⟨some 3⟩, status := ⟨some 1, none⟩ }).filter
        replicaMismatchTitled =
      [{ severity := "warning", title := "Replica mismatch: ns/app",
         detail := "desired=3, available=1", suggestion := deploymentMismatchSuggestion }]) ∧
    strContainsSub ("desired=3, available=1") ("desired=3") = true ∧
    strContainsSub ("desired=3, available=1") ("available=1") = true := by
  refine ⟨?_, by decide, by decide, by decide, by decide⟩
  rw [deploymentIssues, List.countP_append]
  have hprog : (deploymentProgressIssues d).countP replicaMismatchTitled = 0 := by
    rw [List.countP_eq_length_filter, filter_progress_nil d]
    rfl
  rw [hprog, Nat.add_zero]
  simp only [deploymentMismatchIssues]
  by_cases h : d.spec.replicas.getD 0 != d.status.available_replicas.getD 0
  · simp only [h, if_true, List.countP_cons, List.countP_nil, mismatch_titled]
  · simp only [Bool.not_eq_true] at h
    simp [h]

/-- Claim C10: the deployment classifier compares absent replica counts as 0:
both counts absent gives no mismatch issue, desired absent with available 1
gives exactly the mismatch issue with detail desired=0, available=1. -/
theorem absent_replica_counts_default_zero (ns name : String)
    (conds : Option (List DeploymentCondition)) :
    ((deploymentIssues
        { metadata := ⟨ns, name⟩, spec := ⟨none⟩, status := ⟨none, conds⟩ }).countP
        replicaMismatchTitled = 0) ∧
    ((deploymentIssues
        { metadata := ⟨ns, name⟩, spec := ⟨none⟩, status := ⟨some 1, conds⟩ }).filter
        replicaMismatchTitled =
      [{ severity := "warning", title := "Replica mismatch: " ++ ns ++ "/" ++ name,
         detail := "desired=0, available=1", suggestion := deploymentMismatchSuggestion }]) := by
  constructor
  · rw [deploymentIssues, List.countP_append]
    have hprog : (deploymentProgressIssues
        { metadata := ⟨ns, name⟩, spec := ⟨none⟩, status := ⟨none, conds⟩ }).countP
        replicaMismatchTitled = 0 := by
      rw [List.countP_eq_length_filter, filter_progress_nil]
      rfl
    rw [hprog, Nat.add_zero]
    simp [deploymentMismatchIssues]
  · rw [deploymentIssues, List.filter_append, filter_progress_nil, List.append_nil]
    simp [deploymentMismatchIssues, List.filter, mismatch_titled]
    rfl

/-- Claim C7: each node with a Ready condition absent or not True yields
exactly one issue titled Node NotReady (carrying the condition status and
heartbeat in the detail, per nodeNotReadyIssues); a node whose Ready status
is True yields zero such issues; no other node issue carries that title. -/
theorem node_notready_rule (n : Node) :
    (nodeIssues n).filter nodeNotReadyTitled = nodeNotReadyIssues n ∧
    ((nodeIssues n).countP nodeNotReadyTitled =
      match condGet (n.status.conditions.getD []) "Ready" with
      | none => 1
      | some ready => if ready.status != "True" then 1 else 0) ∧
    strContainsSub ("Node NotReady: " ++ n.metadata.name) "NotReady" = true := by
  have hB : (nodeCordonIssues n).filter nodeNotReadyTitled = [] := by
    rw [List.filter_eq_nil_iff]
    intro a ha
    simp only [nodeCordonIssues] at ha
    split at ha
    · simp only [List.mem_singleton] at ha
      subst ha
      exact fun hh => Bool.noConfusion hh
    · simp at ha
  have hC : (nodePressureIssues n).filter nodeNotReadyTitled = [] := by
    rw [List.filter_eq_nil_iff]
    intro a ha
    simp only [nodePressureIssues, List.mem_flatMap] at ha
    obtain ⟨t, _, ha⟩ := ha
    split at ha
    · split at ha
      · simp only [List.mem_singleton] at ha
        subst ha
        exact fun hh => Bool.noConfusion hh
      · simp at ha
    · simp at ha
  have hA : (nodeNotReadyIssues n).filter nodeNotReadyTitled = nodeNotReadyIssues n := by
    simp only [nodeNotReadyIssues]
    split
    · simp [List.filter, nodeNotReadyTitled, prefix_titled]
    · split
      · simp [List.filter, nodeNotReadyTitled, prefix_titled]
      · rfl
  have h1 : (nodeIssues n).filter nodeNotReadyTitled = nodeNotReadyIssues n := by
    rw [nodeIssues, List.filter_append, List.filter_append, hA, hB, hC, List.append_nil,
      List.append_nil]
  refine ⟨h1, ?_, ?_⟩
  · rw [List.countP_eq_length_filter, h1]
    simp only [nodeNotReadyIssues]
    split
    · rfl
    · split <;> rfl
  · unfold strContainsSub
    rw [List.any_eq_true]
    refine ⟨5, ?_, rfl⟩
    rw [List.mem_range, String.length_append]
    have h15 : "Node NotReady: ".length = 15 := rfl
    omega

/-- Claim C8: container-level issues are independent: a container waiting
with reason CrashLoopBackOff and restart count 7 yields at least two issues,
one warning for the waiting reason and a separate warning for the high
restart count. -/
theorem container_issues_not_exclusive (ns name : String) (cs : ContainerStatus)
    (m : Option String)
    (hw : cs.state.waiting = some { reason := some ("CrashLoopBackOff"), message := m })
    (hr : cs.restart_count = 7) :
    2 ≤ (containerIssues ns name cs).length ∧
    ({ severity := "warning",
       title := "Container CrashLoopBackOff/Error: " ++ ns ++ "/" ++ name ++ ":" ++ cs.name,
       detail := "Reason=CrashLoopBackOff. Message=" ++ m.getD (""),
       suggestion := "Inspect logs: kubectl logs -n \x7bns\x7d \x7bname\x7d -c \x7bcname\x7d --previous\nCommon fixes: fix app exception, increase readinessTimeout, check env/config, use image with correct tag." } : Issue)
      ∈ containerIssues ns name cs ∧
    ({ severity := "warning",
       title := "High restart count: " ++ ns ++ "/" ++ name ++ ":" ++ cs.name,
       detail := "Restarts=7",
       suggestion := "Investigate initialization,CrashLoopBackOff; check livenessProbe too aggressive, check readiness probe vs startup probe." } : Issue)
      ∈ containerIssues ns name cs ∧
    ("Container CrashLoopBackOff/Error: " ++ ns ++ "/" ++ name ++ ":" ++ cs.name ≠
      "High restart count: " ++ ns ++ "/" ++ name ++ ":" ++ cs.name) := by
  have hne : "Container CrashLoopBackOff/Error: " ++ ns ++ "/" ++ name ++ ":" ++ cs.name ≠
      "High restart count: " ++ ns ++ "/" ++ name ++ ":" ++ cs.name := by
    intro h
    have h2 : some 'C' = some 'H' := congrArg (fun s : String => s.data.head?) h
    simp at h2
  simp only [containerIssues, hw, hr]
  refine ⟨?_, ?_, ?_, hne⟩
  · simp
  · simp
    exact Or.inl rfl
  · simp
    exact Or.inr rfl

/-- Claim C8 witness: a concrete container with waiting reason
CrashLoopBackOff and restart count 7. -/
theorem container_issues_not_exclusive_witness :
    2 ≤ (containerIssues ("default") ("web")
      ⟨"c", ⟨some ⟨some ("CrashLoopBackOff"), none⟩⟩, ⟨none⟩, 7⟩).length ∧
    ({ severity := "warning",
       title := "Container CrashLoopBackOff/Error: " ++ "default" ++ "/" ++ "web" ++ ":" ++
         (⟨"c", ⟨some ⟨some ("CrashLoopBackOff"), none⟩⟩, ⟨none⟩, 7⟩ : ContainerStatus).name,
       detail := "Reason=CrashLoopBackOff. Message=" ++ (none : Option String).getD (""),
       suggestion := "Inspect logs: kubectl logs -n \x7bns\x7d \x7bname\x7d -c \x7bcname\x7d --previous\nCommon fixes: fix app exception, increase readinessTimeout, check env/config, use image with correct tag." } : Issue)
      ∈ containerIssues ("default") ("web") ⟨"c", ⟨some ⟨some ("CrashLoopBackOff"), none⟩⟩, ⟨none⟩, 7⟩ ∧
    ({ severity := "warning",
       title := "High restart count: " ++ "default" ++ "/" ++ "web" ++ ":" ++
         (⟨"c", ⟨some ⟨some ("CrashLoopBackOff"), none⟩⟩, ⟨none⟩, 7⟩ : ContainerStatus).name,
       detail := "Restarts=7",
       suggestion := "Investigate initialization,CrashLoopBackOff; check livenessProbe too aggressive, check readiness probe vs startup probe." } : Issue)
      ∈ containerIssues ("default") ("web") ⟨"c", ⟨some ⟨some ("CrashLoopBackOff"), none⟩⟩, ⟨none⟩, 7⟩ ∧
    ("Container CrashLoopBackOff/Error: " ++ "default" ++ "/" ++ "web" ++ ":" ++
        (⟨"c", ⟨some ⟨some ("CrashLoopBackOff"), none⟩⟩, ⟨none⟩, 7⟩ : ContainerStatus).name ≠
      "High restart count: " ++ "default" ++ "/" ++ "web" ++ ":" ++
        (⟨"c", ⟨some ⟨some ("CrashLoopBackOff"), none⟩⟩, ⟨none⟩, 7⟩ : ContainerStatus).name) :=
  container_issues_not_exclusive ("default") ("web")
    ⟨"c", ⟨some ⟨some ("CrashLoopBackOff"), none⟩⟩, ⟨none⟩, 7⟩ none rfl rfl

theorem filterMap_eq_filter_map {α β : Type} (f : α → Option β) (g : α → β) (p : α → Bool)
    (hf : ∀ a, f a = if p a then some (g a) else none) (l : List α) :
    l.filterMap f = (l.filter p).map g := by
  induction l with
  | nil => rfl
  | cons a t ih =>
      rw [List.filterMap_cons, List.filter_cons, hf a]
      by_cases hp : p a
      · simp [hp, ih]
      · simp [hp, ih]

theorem collect_events_ok (now mins : Int) (evs : List EventRecord) :
    collect_events now mins (Except.ok evs) =
      Except.ok ((evs.filter (eventMatches (now - mins * 60))).map eventIssue) := by
  simp only [collect_events]
  congr 1
  refine filterMap_eq_filter_map _ eventIssue (eventMatches (now - mins * 60)) ?_ evs
  intro e
  rcases h : eventTs e with _ | ts
  · simp [eventMatches, h]
  · by_cases hc : ts < now - mins * 60
    · simp [eventMatches, h, hc]
    · by_cases hw : e.type == "Warning"
      · simp [eventMatches, h, hc, hw]
      · simp [eventMatches, h, hc, hw]

/-- Claim C4: the event classifier keeps exactly the events that have a
timestamp (preferring last-seen, then event time, then first-seen), are not
older than the cutoff, and have type exactly Warning; a Warning event 30
minutes old passes a 60-minute window, one 90 minutes old does not, and a
Normal event never does. -/
theorem event_filtering_rule (now mins : Int) (evs : List EventRecord)
    (e : EventRecord) (t : Int) :
    collect_events now mins (Except.ok evs) =
      Except.ok ((evs.filter (eventMatches (now - mins * 60))).map eventIssue) ∧
    (e.last_timestamp = some t → eventTs e = some t) ∧
    (e.last_timestamp = none → e.event_time = some t → eventTs e = some t) ∧
    (e.last_timestamp = none → e.event_time = none → eventTs e = e.first_timestamp) ∧
    (∀ obj reason msg,
      collect_events now 60 (Except.ok [{ type := "Warning", last_timestamp := some (now - 1800), event_time := none, first_timestamp := none, involved_object := obj, reason := reason, message := msg }]) =
        Except.ok [{ severity := "warning", title := "Event: " ++ obj.kind ++ " " ++ obj.name ++ " - " ++ reason, detail := msg, suggestion := "Investigate the resource and reason; kubectl describe on the involved object." }]) ∧
    (∀ obj reason msg,
      collect_events now 60 (Except.ok [{ type := "Warning", last_timestamp := some (now - 5400), event_time := none, first_timestamp := none, involved_object := obj, reason := reason, message := msg }]) =
        Except.ok []) ∧
    (∀ obj reason msg (ts : Int),
      collect_events now 60 (Except.ok [{ type := "Normal", last_timestamp := some ts, event_time := none, first_timestamp := none, involved_object := obj, reason := reason, message := msg }]) =
        Except.ok []) := by
  refine ⟨collect_events_ok now mins evs, ?_, ?_, ?_, ?_, ?_, ?_⟩
  · intro h
    simp [eventTs, h]
  · intro h1 h2
    simp [eventTs, h1, h2]
  · intro h1 h2
    simp [eventTs, h1, h2]
  · intro obj reason msg
    have hcut : ¬(now - 1800 < now - 60 * 60) := by omega
    have hcut2 : ¬(now - 1800 < now - 3600) := by omega
    simp [collect_events, eventTs, eventIssue, hcut, hcut2]
  · intro obj reason msg
    have hcut : now - 5400 < now - 60 * 60 := by omega
    have hcut2 : now - 5400 < now - 3600 := by omega
    simp [collect_events, eventTs, hcut, hcut2]
  · intro obj reason msg ts
    by_cases hc : ts < now - 60 * 60 <;> simp [collect_events, eventTs, hc]

/-- Claim C4 witness: the timestamp preference picks a present last-seen
time. -/
theorem event_filtering_rule_witness :
    eventTs { type := "Warning", last_timestamp := some 5, event_time := none, first_timestamp := none, involved_object := ⟨"Pod", "p"⟩, reason := "r", message := "m" } = some 5 :=
  (event_filtering_rule 0 60 [] { type := "Warning", last_timestamp := some 5, event_time := none, first_timestamp := none, involved_object := ⟨"Pod", "p"⟩, reason := "r", message := "m" } 5).2.1 rfl

theorem docProblems_safe (i : Nat) (d : Yaml) (h : metadataMembershipSafe d = true) :
    ∃ ps, docProblems i d = Except.ok ps := by
  cases d with
  | map es =>
      simp only [docProblems]
      by_cases hm : es.any (fun p => p.1 == ("metadata")) = true
      · rcases hfind : es.find? (fun q => q.1 == ("metadata")) with _ | p
        · exfalso
          rw [List.any_eq_true] at hm
          obtain ⟨x, hx, hpx⟩ := hm
          exact absurd hpx (by simpa using List.find?_eq_none.mp hfind x hx)
        · simp only [metadataMembershipSafe, hfind] at h
          simp only [hm, if_true, dictGet, hfind]
          cases hp2 : p.2 with
          | map es2 => exact ⟨_, rfl⟩
          | str s => exact ⟨_, rfl⟩
          | seq xs => exact ⟨_, rfl⟩
          | null => rw [hp2] at h; simp at h
          | bool b => rw [hp2] at h; simp at h
          | int n => rw [hp2] at h; simp at h
      · rw [Bool.not_eq_true] at hm
        simp only [hm]
        exact ⟨_, rfl⟩
  | null => exact ⟨_, rfl⟩
  | bool b => exact ⟨_, rfl⟩
  | int n => exact ⟨_, rfl⟩
  | str s => exact ⟨_, rfl⟩
  | seq xs => exact ⟨_, rfl⟩

theorem manifestProblemsFrom_safe (docs : List Yaml) :
    ∀ i, docs.all metadataMembershipSafe = true →
      ∃ ps, manifestProblemsFrom i docs = Except.ok ps := by
  induction docs with
  | nil =>
      intro i _
      exact ⟨[], rfl⟩
  | cons d rest ih =>
      intro i h
      rw [List.all_cons, Bool.and_eq_true] at h
      obtain ⟨hd, hrest⟩ := h
      obtain ⟨ps, hps⟩ := docProblems_safe i d hd
      obtain ⟨restPs, hrestPs⟩ := ih (i + 1) hrest
      refine ⟨ps ++ restPs, ?_⟩
      simp only [manifestProblemsFrom, hps, hrestPs]

/-- Claim C5 counterexample: the structural check does not always reduce a
manifest to a verdict determined by the collected problems: a mapping
document whose metadata key holds a null value makes the membership test
raise a TypeError that the source does not catch (its try wraps only the
parse), so no verdict is produced at all for this parsed input. -/
theorem manifest_check_crashes_on_null_metadata :
    simple_local_manifest_check
        (Except.ok [Yaml.map [("kind", Yaml.str ("Pod")), ("metadata", Yaml.null)]]) =
      Except.error ("TypeError: argument of type \x27NoneType\x27 is not iterable") := rfl

/-- Claim C5 (amended): the local structural check collects one problem
string per missing requirement per document and, whenever the document loop
completes without raising, succeeds iff the problem list is empty; a
whole-file parse failure is a distinct failure outcome from zero documents;
the loop is raise-free whenever every mapping document with a metadata key
maps it to a mapping, string or sequence, but a metadata value that is
null, a bool or an int makes the checker raise an uncaught TypeError
instead of producing a verdict; the two-document example yields a failed
verdict with exactly two distinct problem strings. -/
theorem manifest_check_problem_collection_amended :
    (∀ e, simple_local_manifest_check (Except.error e) =
      Except.ok (false, "YAML parse error: " ++ e)) ∧
    (∀ docs ps, manifestProblems docs = Except.ok ps →
      simple_local_manifest_check (Except.ok docs) =
        Except.ok (ps.length == 0,
          if ps.length == 0 then ("Basic YAML checks passed.")
          else String.intercalate ("\n") ps)) ∧
    (∀ docs ps, manifestProblems docs = Except.ok ps →
      (simple_local_manifest_check (Except.ok docs) =
        Except.ok (true, "Basic YAML checks passed.") ↔ ps = [])) ∧
    (∀ docs, docs.all metadataMembershipSafe = true →
      ∃ ps, manifestProblems docs = Except.ok ps) ∧
    (manifestProblems [Yaml.map [("metadata", Yaml.map [("name", Yaml.str ("a"))])], Yaml.map [("kind", Yaml.str ("Pod"))]] =
      Except.ok ["Document 0 missing \x27kind\x27", "Document 1 missing metadata.name"]) ∧
    (simple_local_manifest_check (Except.ok [Yaml.map [("metadata", Yaml.map [("name", Yaml.str ("a"))])], Yaml.map [("kind", Yaml.str ("Pod"))]]) =
      Except.ok (false, "Document 0 missing \x27kind\x27\nDocument 1 missing metadata.name")) ∧
    (("Document 0 missing \x27kind\x27" == "Document 1 missing metadata.name") = false) := by
  have hB : ∀ docs ps, manifestProblems docs = Except.ok ps →
      simple_local_manifest_check (Except.ok docs) =
        Except.ok (ps.length == 0,
          if ps.length == 0 then ("Basic YAML checks passed.")
          else String.intercalate ("\n") ps) := by
    intro docs ps h
    simp only [simple_local_manifest_check]
    rw [h]
  refine ⟨fun e => rfl, hB, ?_, fun docs h => manifestProblemsFrom_safe docs 0 h,
    rfl, rfl, by decide⟩
  intro docs ps h
  rw [hB docs ps h]
  cases ps with
  | nil => simp
  | cons a t => simp

/-- Claim C5 witness: the two-document example instantiates the
loop-completes conjunct at a concrete problem list. -/
theorem manifest_check_problem_collection_amended_witness :
    simple_local_manifest_check (Except.ok [Yaml.map [("metadata", Yaml.map [("name", Yaml.str ("a"))])], Yaml.map [("kind", Yaml.str ("Pod"))]]) =
      Except.ok (false, "Document 0 missing \x27kind\x27\nDocument 1 missing metadata.name") := by
  have h := manifest_check_problem_collection_amended.2.1
    [Yaml.map [("metadata", Yaml.map [("name", Yaml.str ("a"))])], Yaml.map [("kind", Yaml.str ("Pod"))]]
    ["Document 0 missing \x27kind\x27", "Document 1 missing metadata.name"] rfl
  exact h

/-! Transitivity and totality of the reporter comparison, needed by the
merge sort lemmas. -/

theorem sortKeyLe_trans : ∀ (a b c : Issue), sortKeyLe a b → sortKeyLe b c → sortKeyLe a c := by
  intro a b c hab hbc
  simp only [sortKeyLe, decide_eq_true_eq] at hab hbc ⊢
  rcases hab with h1 | ⟨h1, t1⟩ <;> rcases hbc with h2 | ⟨h2, t2⟩
  · exact Or.inl (by omega)
  · exact Or.inl (by omega)
  · exact Or.inl (by omega)
  · exact Or.inr ⟨by omega, le_trans t1 t2⟩

theorem sortKeyLe_total : ∀ (a b : Issue), sortKeyLe a b || sortKeyLe b a := by
  intro a b
  simp only [sortKeyLe, Bool.or_eq_true, decide_eq_true_eq]
  rcases Nat.lt_trichotomy (sev_order a.severity) (sev_order b.severity) with h | h | h
  · exact Or.inl (Or.inl h)
  · rcases le_total a.title b.title with ht | ht
    · exact Or.inl (Or.inr ⟨h, ht⟩)
    · exact Or.inr (Or.inr ⟨h.symm, ht⟩)
  · exact Or.inr (Or.inl h)

/-- Claim C3: the rendered list is a stable sort of the concatenated input
by severity rank then title: it is a permutation of the input, pairwise
ordered by rank with titles ascending inside a rank, and any two key-equal
entries keep their input order. -/
theorem issues_sorted_is_stable_sort (l : List Issue) :
    List.Perm (issues_sorted l) l ∧
    (issues_sorted l).Pairwise (fun a b =>
      sev_order a.severity ≤ sev_order b.severity ∧
      (sev_order a.severity = sev_order b.severity → a.title ≤ b.title)) ∧
    (∀ a b : Issue, List.Sublist [a, b] l → sev_order a.severity = sev_order b.severity →
      a.title = b.title → List.Sublist [a, b] (issues_sorted l)) := by
  refine ⟨List.mergeSort_perm l _, ?_, ?_⟩
  · have h := List.sorted_mergeSort sortKeyLe_trans sortKeyLe_total l
    refine h.imp ?_
    intro a b hab
    simp only [sortKeyLe, decide_eq_true_eq] at hab
    rcases hab with h1 | ⟨h1, t1⟩
    · exact ⟨Nat.le_of_lt h1, fun he => absurd h1 (by omega)⟩
    · exact ⟨Nat.le_of_eq h1, fun _ => t1⟩
  · intro a b hsub hsev ht
    exact List.pair_sublist_mergeSort sortKeyLe_trans sortKeyLe_total
      (by simp only [sortKeyLe, decide_eq_true_eq]; exact Or.inr ⟨hsev, le_of_eq ht⟩) hsub

/-- Claim C3 witness: two warnings with the same title keep their input
order in the sorted output. -/
theorem issues_sorted_is_stable_sort_witness :
    List.Sublist
      [({ severity := "warning", title := "t", detail := "d1", suggestion := "s" } : Issue),
       { severity := "warning", title := "t", detail := "d2", suggestion := "s" }]
      (issues_sorted
        [{ severity := "warning", title := "t", detail := "d1", suggestion := "s" },
         { severity := "warning", title := "t", detail := "d2", suggestion := "s" }]) :=
  (issues_sorted_is_stable_sort _).2.2 _ _ (List.Sublist.refl _) rfl rfl

end K8sInspector
